import Mathlib

/-!
Shallow embedding of the `sysstatus` information-collection layer.

The embedding covers:
* `format_uptime` and `safe_get_nested` from `sysstatus/utils.py` (pure functions);
* `SystemInfo.get_router_ip`, `SystemInfo.get_weather` and `SystemInfo.get_all_info`
  from `sysstatus/core.py`, with the effectful collaborators (the routing-table
  subprocess, the HTTP transport, the other probes) made explicit as outcome
  parameters;
* the CLI city-override merge sequence from `sysstatus/cli.py`.

Machine reals from `/proc/uptime` are modelled as rationals (the file holds a
decimal literal, represented exactly); Python `int()` truncation toward zero is
`pyTrunc`.  Python `dict` values with distinct string keys are modelled as
insertion-ordered association lists, whose `List.lookup` and key order agree
with `dict` lookup and iteration order.
-/

namespace Sysstatus

/-- Helper for `pySplitWs`: accumulate the current token (reversed) while
scanning the character list. -/
def wsTokensAux (acc : List Char) : List Char → List (List Char)
  | [] => if acc.isEmpty then [] else [acc.reverse]
  | c :: cs =>
    if c.isWhitespace then
      if acc.isEmpty then wsTokensAux [] cs else acc.reverse :: wsTokensAux [] cs
    else wsTokensAux (c :: acc) cs

/-- Python `str.split()` with no argument: split on runs of whitespace,
dropping empty tokens. -/
def pySplitWs (s : String) : List String :=
  (wsTokensAux [] s.data).map String.mk

/-- Helper for `pySplitLines`: split a character list at newline characters. -/
def linesAux (acc : List Char) : List Char → List String
  | [] => [String.mk acc.reverse]
  | c :: cs =>
    if c = '\n' then String.mk acc.reverse :: linesAux [] cs
    else linesAux (c :: acc) cs

/-- Python `str.splitlines()` for newline-separated text, as produced by
`ip route`.  (This keeps a final empty line that `splitlines` drops; an empty
line matches no parsing rule below, so the difference is inert.) -/
def pySplitLines (s : String) : List String := linesAux [] s.data

/-- Python `str.strip()`: drop leading and trailing whitespace. -/
def pyStrip (s : String) : String :=
  String.mk (((s.data.dropWhile Char.isWhitespace).reverse.dropWhile
    Char.isWhitespace).reverse)

/-- Python `str.startswith(p)`. -/
def pyStartsWith (s p : String) : Bool := p.data.isPrefixOf s.data

/-! ## Router probe (`SystemInfo.get_router_ip`, core.py lines 50-69) -/

/-- Outcome of the `subprocess.run(["ip", "route"], ..., timeout=5, check=True)`
call: either captured stdout, or a raised `subprocess.SubprocessError` /
`subprocess.TimeoutExpired` (with `check=True`, a nonzero exit status raises
`CalledProcessError`, a `SubprocessError`). -/
inductive CmdOutcome where
  | fail (msg : String)
  | ok (stdout : String)
  deriving DecidableEq

/-- The `for line in result.stdout.splitlines()` loop body of `get_router_ip`:
return `parts[2]` of the first stripped line starting with `"default"` that has
at least three whitespace-separated tokens; keep scanning otherwise. -/
def routerScan : List String → Option String
  | [] => none
  | line :: rest =>
    if pyStartsWith (pyStrip line) "default" then
      match pySplitWs line with
      | _ :: _ :: third :: _ => some third
      | _ => routerScan rest
    else routerScan rest

/-- `SystemInfo.get_router_ip`: on subprocess failure, log a warning and return
`None`; otherwise scan stdout for a default-route line. -/
def get_router_ip : CmdOutcome → Option String
  | .fail _ => none
  | .ok stdout => routerScan (pySplitLines stdout)

/-! ## Aggregator (`SystemInfo.get_all_info`, core.py lines 150-187) -/

/-- Probe outcomes of one run, abstracting the effectful probes that
`get_all_info` invokes.  `Except.error e` models the probe raising an
exception whose `str()` is `e` (`WeatherAPIError` for weather,
`SystemInfoError` for IP and uptime, any exception for the router call, per
the `except` clauses of `get_all_info`); the normal result of the router probe is
optional by design. -/
structure ProbeEnv where
  now : String
  weather : Except String String
  ip : Except String String
  router : Except String (Option String)
  uptime : Except String String

/-- The `except ...: info[k] = f"Error: {e}"` policy applied to one probe
outcome. -/
def renderResult : Except String String → String
  | .ok s => s
  | .error e => "Error: " ++ e

/-- The policy for the router entry: `info["Router IP"] = router_ip if router_ip
else "Not available"`, with the surrounding `except Exception` clause.  The
Python truthiness test sends both `None` and an empty string to
"Not available". -/
def renderRouter : Except String (Option String) → String
  | .ok (some s) => if s = "" then "Not available" else s
  | .ok none => "Not available"
  | .error e => "Error: " ++ e

/-- `SystemInfo.get_all_info`: build the insertion-ordered info map, wrapping
each probe call in its own `try`/`except`. -/
def get_all_info (env : ProbeEnv) (include_weather : Bool) : List (String × String) :=
  let info := [("Date/Time", env.now)]
  let info := info ++
    (if include_weather then [("Weather", renderResult env.weather)] else [])
  let info := info ++ [("IP Address", renderResult env.ip)]
  let info := info ++ [("Router IP", renderRouter env.router)]
  info ++ [("Uptime", renderResult env.uptime)]

/-- The CLI city-override sequence (cli.py lines 142-149): call
`get_all_info(include_weather=False)`, then assign `info_data["Weather"]`
from a separate `get_weather(city)` call, rendering a raised exception as
`f"Error: {e}"`.  Assigning a fresh key appends it to the dict.  (The
`except` branch re-runs `get_all_info(include_weather=False)`; with one fixed
set of probe outcomes both branches produce this list.) -/
def cli_city_override (env : ProbeEnv) (weatherOverride : Except String String) :
    List (String × String) :=
  get_all_info env false ++ [("Weather", renderResult weatherOverride)]

/-! ## Uptime formatting (`format_uptime`, utils.py lines 31-56) -/

/-- Python `int()` applied to an exactly-represented reading: truncation of a
rational toward zero.  `/proc/uptime` holds a short decimal literal, which a
rational represents exactly. -/
def pyTrunc (q : ℚ) : ℤ := q.num.tdiv q.den

/-- The `parts` list that `format_uptime` builds from the truncated seconds
value.  Python `divmod` is floor division; for the positive constant divisors
used here it coincides with Euclidean division, the Lean `/` and `%` on `ℤ`.
The last step is `if seconds or not parts: parts.append(f".. s")`. -/
def uptimeParts (s : ℤ) : List String :=
  let days := s / 86400
  let r1 := s % 86400
  let hours := r1 / 3600
  let r2 := r1 % 3600
  let minutes := r2 / 60
  let secs := r2 % 60
  let parts :=
    (if days ≠ 0 then [toString days ++ "d"] else []) ++
    (if hours ≠ 0 then [toString hours ++ "h"] else []) ++
    (if minutes ≠ 0 then [toString minutes ++ "m"] else [])
  if secs ≠ 0 ∨ parts = [] then parts ++ [toString secs ++ "s"] else parts

/-- `format_uptime` from utils.py: truncate with `int()`, decompose with
`divmod`, join the parts with single spaces. -/
def format_uptime (q : ℚ) : String :=
  String.intercalate " " (uptimeParts (pyTrunc q))

/-- The formatting rule as the specification words it, on the already
truncated nonnegative total: decompose into days/hours/minutes/seconds,
emit only the non-zero units in descending order, and emit seconds also when
the total is exactly zero. -/
def uptimeSpecParts (n : ℕ) : List String :=
  let d := n / 86400
  let h := n % 86400 / 3600
  let m := n % 86400 % 3600 / 60
  let s := n % 60
  ((if d ≠ 0 then [toString d ++ "d"] else []) ++
   (if h ≠ 0 then [toString h ++ "h"] else []) ++
   (if m ≠ 0 then [toString m ++ "m"] else [])) ++
  (if s ≠ 0 ∨ n = 0 then [toString s ++ "s"] else [])

/-- The specification-side formatter. -/
def uptimeSpec (n : ℕ) : String := String.intercalate " " (uptimeSpecParts n)

/-! ## Weather probe (`SystemInfo.get_weather`, core.py lines 102-148)

The HTTP transport (`requests.get` + `raise_for_status` + `.json()`) is a
collaborator outside this repository; following the external
interface it is modelled as an oracle from the request URL to one of three
outcomes: a transport-level failure (a `requests.RequestException`: connection
error, timeout, or the non-2xx status raised by `raise_for_status`), a body
that fails to parse as structured data (a `ValueError`), or a parsed body.
Parsed JSON is modelled by `JVal`; a JSON number is carried together with its
Python `str()` rendering, since the probe interpolates it verbatim. -/

/-- A parsed JSON value as a Python object: `null` is Python `None`. -/
inductive JVal where
  | null
  | bool (b : Bool)
  | num (pyrepr : String) (val : ℚ)
  | str (s : String)
  | arr (elems : List JVal)
  | obj (fields : List (String × JVal))

mutual
/-- Python `repr()` on a parsed JSON value. -/
def pyRepr : JVal → String
  | .null => "None"
  | .bool true => "True"
  | .bool false => "False"
  | .num r _ => r
  | .str s => "\x27" ++ s ++ "\x27"
  | .arr es => "[" ++ String.intercalate ", " (pyReprList es) ++ "]"
  | .obj fs => "\x7b" ++ String.intercalate ", " (pyReprFields fs) ++ "\x7d"

/-- `pyRepr` mapped over array elements. -/
def pyReprList : List JVal → List String
  | [] => []
  | v :: vs => pyRepr v :: pyReprList vs

/-- `pyRepr` mapped over object entries. -/
def pyReprFields : List (String × JVal) → List String
  | [] => []
  | (k, v) :: fs => ("\x27" ++ k ++ "\x27: " ++ pyRepr v) :: pyReprFields fs
end

/-- Python `str()` on a parsed JSON value, as used by f-string interpolation. -/
def pyStr : JVal → String
  | .str s => s
  | v => pyRepr v

/-- Python `dict.get(k)` (default `None`): only objects have `.get`; this
helper is used where the code guarantees the receiver is a `dict`. -/
def jGet : JVal → String → Option JVal
  | .obj fields, k => fields.lookup k
  | _, _ => none

/-- Collapse JSON `null` into Python `None`: `x is None` holds both for an
absent key and for a stored `null`. -/
def denull : Option JVal → Option JVal
  | some .null => none
  | x => x

/-- `safe_get_nested` from utils.py: descend through nested dictionaries,
returning the default `None` when the current value is not a dict or the key
is missing. -/
def safe_get_nested : JVal → List String → Option JVal
  | v, [] => some v
  | .obj fields, k :: ks =>
    match fields.lookup k with
    | some v => safe_get_nested v ks
    | none => none
  | _, _ :: _ => none

/-- Python `str.replace(pat, rep)` for a non-empty literal `pat`, scanning
left to right without overlap.  (For an empty `pat` this is the identity,
unlike Python; both call sites pass non-empty literals.) -/
def replaceChars (pat rep : List Char) : List Char → List Char
  | [] => []
  | c :: cs =>
    if pat ≠ [] ∧ pat.isPrefixOf (c :: cs) then
      rep ++ replaceChars pat rep (cs.drop (pat.length - 1))
    else c :: replaceChars pat rep cs
termination_by l => l.length
decreasing_by
  · simp only [List.length_cons, List.length_drop]
    omega
  · simp only [List.length_cons]
    omega

/-- `str.format(city=..., api_key=...)` on the URL template, which holds the
two placeholders. -/
def pyFormat (tmpl city key : String) : String :=
  String.mk (replaceChars "{api_key}".data key.data
    (replaceChars "{city}".data city.data tmpl.data))

/-- The three configuration values `get_weather` reads.  `weather_api_key`
mirrors `os.getenv("WEATHER_API_KEY")`: `none` when the variable is unset. -/
structure WConfig where
  weather_api_key : Option String
  default_city : String
  weather_url_template : String

/-- `city = city or self.config.default_city`: Python `or` takes the default
both for `None` and for an empty (falsy) string. -/
def resolve_city (cfg : WConfig) (city : Option String) : String :=
  match city with
  | some c => if c = "" then cfg.default_city else c
  | none => cfg.default_city

/-- The URL `get_weather` builds for a request. -/
def requestUrl (cfg : WConfig) (city : Option String) (key : String) : String :=
  pyFormat cfg.weather_url_template (resolve_city cfg city) key

/-- Outcome of one HTTP exchange, abstracting
`requests.get` / `raise_for_status` / `response.json()`. -/
inductive TransportOutcome where
  | transportError (msg : String)
  | parseFailure (msg : String)
  | ok (body : JVal)

/-- How a `get_weather` call terminates when it does not return: with a
raised `WeatherAPIError`, or with an exception type none of its `except`
clauses catch (`AttributeError`/`TypeError` on a body outside the declared
response schema). -/
inductive PyError where
  | weatherAPIError (msg : String)
  | uncaught
  deriving DecidableEq

/-- Evaluation of `weather_list = data.get("weather", []); description = None;
if weather_list and len(weather_list) > 0: description =
weather_list[0].get("description")`, including the exception behaviour on
bodies outside the declared schema: `dict[0]` raises `KeyError(0)` (caught
later as a parse failure with message `"0"`), while `len()` or indexing or
`.get` on other non-list truthy values raises an uncaught
`TypeError`/`AttributeError`. -/
inductive DescOutcome where
  | val (d : Option JVal)
  | keyErrorZero
  | uncaughtExc

/-- See `DescOutcome`. -/
def getDescription (data : JVal) : DescOutcome :=
  match jGet data "weather" with
  | none => .val none
  | some w =>
    match w with
    | .arr [] => .val none
    | .arr (w0 :: _) =>
      match w0 with
      | .obj _ => .val (denull (jGet w0 "description"))
      | _ => .uncaughtExc
    | .null => .val none
    | .str s => if s = "" then .val none else .uncaughtExc
    | .bool b => if b then .uncaughtExc else .val none
    | .num _ v => if v = 0 then .val none else .uncaughtExc
    | .obj fs => if fs.isEmpty then .val none else .keyErrorZero

/-- `data.get("cod") != 200`, negated: Python `==` against the int `200`
holds exactly for a numeric value equal to 200 (a bool is `0`/`1`, never
200). -/
def codIs200 (data : JVal) : Bool :=
  match jGet data "cod" with
  | some (.num _ v) => v == 200
  | _ => false

/-- `data.get("message", "Unknown API error")` interpolated into the
embedded-API-error message (a stored `null` is returned, not the default,
and prints as `None`). -/
def apiErrorMessage (data : JVal) : String :=
  match jGet data "message" with
  | none => "Unknown API error"
  | some v => pyStr v

/-- `SystemInfo.get_weather`: resolve the city, require a non-falsy API key,
perform the exchange, check the embedded status code, extract temperature
and description, and format the result.  Mirrors the `try`/`except` layout:
`RequestException` becomes a fetch failure, `KeyError`/`IndexError`/
`ValueError` become parse failures, `WeatherAPIError` raised inside the
`try` propagates. -/
def get_weather (cfg : WConfig) (transport : String → TransportOutcome)
    (city : Option String) : Except PyError String :=
  match cfg.weather_api_key with
  | none => .error (.weatherAPIError "Weather API key not configured")
  | some api_key =>
    if api_key = "" then .error (.weatherAPIError "Weather API key not configured")
    else
      match transport (requestUrl cfg city api_key) with
      | .transportError m =>
          .error (.weatherAPIError ("Failed to fetch weather data: " ++ m))
      | .parseFailure m =>
          .error (.weatherAPIError ("Failed to parse weather data: " ++ m))
      | .ok data =>
        match data with
        | .obj _ =>
          if codIs200 data then
            let temp := denull (safe_get_nested data ["main", "temp"])
            match getDescription data with
            | .keyErrorZero =>
                .error (.weatherAPIError ("Failed to parse weather data: " ++ "0"))
            | .uncaughtExc => .error .uncaught
            | .val desc =>
              match temp, desc with
              | some t, some d =>
                  .ok (resolve_city cfg city ++ ": " ++ pyStr t ++ "°C, " ++ pyStr d)
              | _, _ => .error (.weatherAPIError "Invalid weather data format")
          else
            .error (.weatherAPIError ("Weather API error: " ++ apiErrorMessage data))
        | _ => .error .uncaught

/-- The extraction rule of the claim on one line, matching the acceptance
condition of the scan: a stripped line starting with "default" and holding at least
three whitespace-separated tokens yields its third token. -/
def defaultThird (line : String) : Option String :=
  if pyStartsWith (pyStrip line) "default" then
    match pySplitWs line with
    | _ :: _ :: third :: _ => some third
    | _ => none
  else none

/-- A sample success-path weather response body, matching the worked example
of the specification. -/
def sampleWeatherBody : JVal :=
  .obj [("cod", .num "200" 200),
        ("main", .obj [("temp", .num "25.5" 25.5)]),
        ("weather", .arr [.obj [("description", .str "clear sky")]])]

example :
    get_all_info ⟨"t", .error "boom", .ok "1.2.3.4", .ok none, .ok "5m"⟩ true =
      [("Date/Time", "t"), ("Weather", "Error: boom"), ("IP Address", "1.2.3.4"),
       ("Router IP", "Not available"), ("Uptime", "5m")] := by decide

example : get_router_ip (.ok "default via 192.168.1.1 dev eth0") = some "192.168.1.1" := by
  decide

example : get_router_ip (.ok "1.2.3.0/24 dev eth0\ndefault via 10.0.0.1 dev eth0 src x") =
    some "10.0.0.1" := by decide

/-! ## Claim theorems -/

lemma uptimeParts_natCast (n : ℕ) : uptimeParts (n : ℤ) = uptimeSpecParts n := by
  have e1 : ((n:ℤ) / 86400) = ((n / 86400 : ℕ) : ℤ) := by omega
  have e2 : ((n:ℤ) % 86400) = ((n % 86400 : ℕ) : ℤ) := by omega
  have e3 : (((n % 86400 : ℕ)):ℤ) / 3600 = ((n % 86400 / 3600 : ℕ) : ℤ) := by omega
  have e4 : (((n % 86400 : ℕ)):ℤ) % 3600 = ((n % 86400 % 3600 : ℕ) : ℤ) := by omega
  have e5 : (((n % 86400 % 3600 : ℕ)):ℤ) / 60 = ((n % 86400 % 3600 / 60 : ℕ) : ℤ) := by
    omega
  have e6 : (((n % 86400 % 3600 : ℕ)):ℤ) % 60 = ((n % 60 : ℕ) : ℤ) := by omega
  have ts : ∀ a : ℕ, toString (a : ℤ) = toString a := fun a => rfl
  simp only [uptimeParts, uptimeSpecParts, e1, e2, e3, e4, e5, e6, ts, ne_eq,
    Int.natCast_eq_zero]
  by_cases hd : n / 86400 = 0 <;> by_cases hh : n % 86400 / 3600 = 0 <;>
    by_cases hm : n % 86400 % 3600 / 60 = 0 <;> by_cases hs : n % 60 = 0 <;>
    simp [hd, hh, hm, hs] <;> first
    | omega
    | (have hn0 : n = 0 := by omega
       simp [hn0])

lemma format_uptime_eq_uptimeSpec (q : ℚ) (hq : 0 ≤ q) :
    format_uptime q = uptimeSpec (pyTrunc q).toNat := by
  have h0 : 0 ≤ pyTrunc q :=
    Int.tdiv_nonneg (Rat.num_nonneg.mpr hq) (Int.natCast_nonneg q.den)
  obtain ⟨n, hn⟩ := Int.eq_ofNat_of_zero_le h0
  rw [format_uptime, uptimeSpec, hn, Int.toNat_natCast, uptimeParts_natCast]

lemma routerScan_eq_findSome (ls : List String) :
    routerScan ls = ls.findSome? defaultThird := by
  induction ls with
  | nil => rfl
  | cons l rest ih =>
    by_cases h : pyStartsWith (pyStrip l) "default" = true <;>
      rcases hm : pySplitWs l with _ | ⟨a, _ | ⟨b, _ | ⟨c, tail⟩⟩⟩ <;>
      simp [routerScan, defaultThird, List.findSome?_cons, h, hm, ih]

/-- C6: with the API key unset, `get_weather` fails with
`WeatherAPIError("Weather API key not configured")` and performs no network
request: the result is a constant independent of the transport, for every
city argument. -/
theorem get_weather_missing_key (cfg : WConfig) (t : String → TransportOutcome)
    (city : Option String) (h : cfg.weather_api_key = none) :
    get_weather cfg t city = .error (.weatherAPIError "Weather API key not configured") ∧
    ∀ t' : String → TransportOutcome, get_weather cfg t city = get_weather cfg t' city := by
  constructor
  · simp [get_weather, h]
  · intro t'
    simp [get_weather, h]

theorem get_weather_missing_key_witness :
    get_weather ⟨none, "Dhaka", "u"⟩ (fun _ => .ok .null) (some "TestCity") =
      .error (.weatherAPIError "Weather API key not configured") :=
  (get_weather_missing_key ⟨none, "Dhaka", "u"⟩ (fun _ => .ok .null)
    (some "TestCity") rfl).1

/-- C10: an API key configured as the empty string behaves exactly like an
absent key: the falsiness check fails it before any network request, for
every city argument. -/
theorem get_weather_empty_key (cfg : WConfig) (t : String → TransportOutcome)
    (city : Option String) (h : cfg.weather_api_key = some "") :
    get_weather cfg t city = .error (.weatherAPIError "Weather API key not configured") ∧
    ∀ t' : String → TransportOutcome, get_weather cfg t city = get_weather cfg t' city := by
  constructor
  · simp [get_weather, h]
  · intro t'
    simp [get_weather, h]

theorem get_weather_empty_key_witness :
    get_weather ⟨some "", "Dhaka", "u"⟩ (fun _ => .ok .null) none =
      .error (.weatherAPIError "Weather API key not configured") :=
  (get_weather_empty_key ⟨some "", "Dhaka", "u"⟩ (fun _ => .ok .null) none rfl).1

/-- C5: with a configured key, a transport-level failure yields a
`WeatherAPIError` message carrying the fetch prefix, a body that fails to
parse yields one carrying the parse prefix, and the two prefixes can never
produce the same message. -/
theorem get_weather_failure_taxonomy (cfg : WConfig)
    (t : String → TransportOutcome) (city : Option String) (k : String)
    (hk : cfg.weather_api_key = some k) (hk0 : k ≠ "") :
    (∀ m, t (requestUrl cfg city k) = .transportError m →
      get_weather cfg t city =
        .error (.weatherAPIError ("Failed to fetch weather data: " ++ m))) ∧
    (∀ m, t (requestUrl cfg city k) = .parseFailure m →
      get_weather cfg t city =
        .error (.weatherAPIError ("Failed to parse weather data: " ++ m))) ∧
    (∀ m m', "Failed to fetch weather data: " ++ m ≠ "Failed to parse weather data: " ++ m') := by
  refine ⟨?_, ?_, ?_⟩
  · intro m hm
    simp [get_weather, hk, hk0, hm]
  · intro m hm
    simp [get_weather, hk, hk0, hm]
  · intro m m' h
    have h2 := congrArg String.data h
    simp only [String.data_append] at h2
    have h3 := List.append_inj h2 (by decide)
    exact absurd h3.1 (by decide)

theorem get_weather_failure_taxonomy_witness :
    get_weather ⟨some "key", "Dhaka", "u"⟩ (fun _ => .transportError "timeout") none =
      .error (.weatherAPIError ("Failed to fetch weather data: " ++ "timeout")) :=
  (get_weather_failure_taxonomy ⟨some "key", "Dhaka", "u"⟩
    (fun _ => .transportError "timeout") none "key" rfl (by decide)).1 "timeout" rfl

/-- C8 counterexample: a body holding cod 200 and the string "storm" under
the weather key is parsed,
has the numeric success sentinel, and has no `main.temp`, yet `get_weather`
does not raise `WeatherAPIError("Invalid weather data format")`: evaluating
the description indexes the string and calls `.get` on a character, raising
an uncaught `AttributeError`. -/
theorem weather_invalid_format_counterexample :
    denull (safe_get_nested (.obj [("cod", .num "200" 200), ("weather", .str "storm")])
      ["main", "temp"]) = none ∧
    jGet (.obj [("cod", .num "200" 200), ("weather", .str "storm")]) "cod" =
      some (.num "200" 200) ∧
    get_weather ⟨some "key", "Dhaka", "u"⟩
      (fun _ => .ok (.obj [("cod", .num "200" 200), ("weather", .str "storm")])) none =
      .error .uncaught ∧
    (Except.error PyError.uncaught ≠
      (.error (.weatherAPIError "Invalid weather data format") : Except PyError String)) :=
  ⟨rfl, rfl, rfl, by intro h; injection h with h2; cases h2⟩

/-- C8 (amended): provided evaluating the description completes without an
exception — the `weather` field is absent, falsy, or a list whose first
element is a dict, which the declared response schema guarantees — a parsed
body with embedded status code 200 and an absent temperature (`main.temp`)
or absent description makes `get_weather` raise
`WeatherAPIError("Invalid weather data format")`, a message distinct from
every transport-failure and embedded-API-error message. -/
theorem get_weather_invalid_format (cfg : WConfig)
    (t : String → TransportOutcome) (city : Option String) (k : String)
    (hk : cfg.weather_api_key = some k) (hk0 : k ≠ "")
    (data : JVal) (r : String) (desc : Option JVal)
    (hok : t (requestUrl cfg city k) = .ok data)
    (hcod : jGet data "cod" = some (.num r 200))
    (hdesc : getDescription data = .val desc)
    (habs : denull (safe_get_nested data ["main", "temp"]) = none ∨ desc = none) :
    get_weather cfg t city = .error (.weatherAPIError "Invalid weather data format") ∧
    (∀ m, "Invalid weather data format" ≠ "Failed to fetch weather data: " ++ m) ∧
    (∀ m, "Invalid weather data format" ≠ "Weather API error: " ++ m) := by
  refine ⟨?_, ?_, ?_⟩
  · have hobj : ∃ fs, data = .obj fs := by
      cases data <;> simp [jGet] at hcod ⊢
    obtain ⟨fs, rfl⟩ := hobj
    have hcod200 : codIs200 (.obj fs) = true := by
      simp [codIs200, hcod]
    rcases habs with habs | habs
    · cases desc <;> simp [get_weather, hk, hk0, hok, hcod200, hdesc, habs]
    · subst habs
      cases htemp : denull (safe_get_nested (JVal.obj fs) ["main", "temp"]) <;>
        simp [get_weather, hk, hk0, hok, hcod200, hdesc, htemp]
  · intro m h
    have h2 := congrArg String.length h
    rw [String.length_append] at h2
    rw [show ("Invalid weather data format" : String).length = 27 from rfl,
      show ("Failed to fetch weather data: " : String).length = 30 from rfl] at h2
    omega
  · intro m h
    have h2 := congrArg String.data h
    simp only [String.data_append] at h2
    have h3 := congrArg (List.take 19) h2
    rw [List.take_left' (by decide)] at h3
    exact absurd h3 (by decide)

theorem get_weather_invalid_format_witness :
    get_weather ⟨some "key", "Dhaka", "u"⟩
      (fun _ => .ok (.obj [("cod", .num "200" 200), ("weather", .arr [])])) none =
      .error (.weatherAPIError "Invalid weather data format") :=
  (get_weather_invalid_format ⟨some "key", "Dhaka", "u"⟩
    (fun _ => .ok (.obj [("cod", .num "200" 200), ("weather", .arr [])])) none "key"
    rfl (by decide) (.obj [("cod", .num "200" 200), ("weather", .arr [])]) "200" none
    rfl rfl rfl (Or.inl rfl)).1

/-- C9: a parsed body with embedded status code 200, a present temperature
and a present description makes `get_weather` return exactly
`"<city>: <temp>°C, <description>"`, with the temperature interpolated
verbatim as received (its Python `str()` rendering, no rounding or unit
conversion). -/
theorem get_weather_success_format (cfg : WConfig) (t : String → TransportOutcome)
    (k c : String) (hk : cfg.weather_api_key = some k) (hk0 : k ≠ "") (hc : c ≠ "")
    (data tv : JVal) (r d : String)
    (hok : t (requestUrl cfg (some c) k) = .ok data)
    (hcod : jGet data "cod" = some (.num r 200))
    (htemp : denull (safe_get_nested data ["main", "temp"]) = some tv)
    (hdesc : getDescription data = .val (some (.str d))) :
    get_weather cfg t (some c) = .ok (c ++ ": " ++ pyStr tv ++ "°C, " ++ d) := by
  have hobj : ∃ fs, data = .obj fs := by
    cases data <;> simp [jGet] at hcod ⊢
  obtain ⟨fs, rfl⟩ := hobj
  have hcod200 : codIs200 (.obj fs) = true := by
    simp [codIs200, hcod]
  simp [get_weather, hk, hk0, hok, hcod200, htemp, hdesc, resolve_city, hc, pyStr]

theorem get_weather_success_format_witness :
    get_weather ⟨some "testkey", "Dhaka", "http://api/?q={city}&appid={api_key}"⟩
      (fun _ => .ok sampleWeatherBody) (some "TestCity") =
      .ok "TestCity: 25.5°C, clear sky" := by
  rw [get_weather_success_format
    ⟨some "testkey", "Dhaka", "http://api/?q={city}&appid={api_key}"⟩
    (fun _ => .ok sampleWeatherBody) "testkey" "TestCity" rfl (by decide) (by decide)
    sampleWeatherBody (.num "25.5" 25.5) "200" "clear sky" rfl rfl rfl rfl]
  rfl

/-- C3: for every nonnegative seconds value, `format_uptime` truncates the
fractional part (never rounds) and then emits exactly the
specification-side rule `uptimeSpec`: non-zero units in descending order,
with seconds also emitted when the total is zero; in particular 0 formats
to "0s", 60 to "1m", 3600 to "1h", 86400 to "1d", and 90125.2 truncates to
90125 and formats to "1d 1h 2m 5s". -/
theorem format_uptime_correct :
    (∀ q : ℚ, 0 ≤ q → format_uptime q = uptimeSpec (pyTrunc q).toNat) ∧
    format_uptime 0 = "0s" ∧ format_uptime 60 = "1m" ∧
    format_uptime 3600 = "1h" ∧ format_uptime 86400 = "1d" ∧
    pyTrunc (90125.2 : ℚ) = 90125 ∧ format_uptime (90125.2 : ℚ) = "1d 1h 2m 5s" := by
  have h902 : (90125.2 : ℚ) = mkRat 450626 5 := by
    rw [Rat.mkRat_eq_div]; norm_num
  refine ⟨format_uptime_eq_uptimeSpec, by decide, by decide, by decide, by decide, ?_, ?_⟩
  · rw [h902]; decide
  · rw [h902]; decide

theorem format_uptime_correct_witness :
    format_uptime (mkRat 79 10) = uptimeSpec (pyTrunc (mkRat 79 10)).toNat :=
  format_uptime_correct.1 (mkRat 79 10) (by decide)

/-- C1 counterexample: with every probe succeeding and the router probe
returning the empty string — a present but falsy optional value — the
Python truthiness test of the rendering (`router_ip if router_ip else
"Not available"`) makes the "Router IP" entry carry "Not available" rather
than the returned value unchanged. -/
theorem get_all_info_unchanged_counterexample :
    (get_all_info ⟨"T", .ok "W", .ok "I", .ok (some ""), .ok "U"⟩ true).lookup
      "Router IP" = some "Not available" ∧
    ("Not available" : String) ≠ "" :=
  ⟨rfl, by decide⟩

/-- C1 (amended): for every combination of probe outcomes the aggregator
returns a complete map whose key list is exactly the configured probe set;
each failed probe entry carries "Error: <message>" and each succeeding probe
entry carries its value unchanged — except that a falsy router value (no
value, or the empty string) is rendered as "Not available". -/
theorem get_all_info_complete (env : ProbeEnv) :
    ((get_all_info env true).map Prod.fst =
      ["Date/Time", "Weather", "IP Address", "Router IP", "Uptime"]) ∧
    ((get_all_info env true).lookup "Date/Time" = some env.now) ∧
    ((get_all_info env true).lookup "Weather" = some (renderResult env.weather)) ∧
    ((get_all_info env true).lookup "IP Address" = some (renderResult env.ip)) ∧
    ((get_all_info env true).lookup "Router IP" = some (renderRouter env.router)) ∧
    ((get_all_info env true).lookup "Uptime" = some (renderResult env.uptime)) ∧
    (∀ e, renderResult (.error e) = "Error: " ++ e) ∧
    (∀ s, renderResult (.ok s) = s) ∧
    (∀ e, renderRouter (.error e) = "Error: " ++ e) ∧
    (∀ s, s ≠ "" → renderRouter (.ok (some s)) = s) ∧
    (renderRouter (.ok (some "")) = "Not available") ∧
    (renderRouter (.ok none) = "Not available") := by
  obtain ⟨now, w, ip, r, u⟩ := env
  exact ⟨rfl, rfl, rfl, rfl, rfl, rfl, fun e => rfl, fun s => rfl, fun e => rfl,
    fun s hs => if_neg hs, rfl, rfl⟩

theorem get_all_info_complete_witness :
    (get_all_info ⟨"t", .ok "w", .ok "i", .ok (some "192.168.1.1"), .ok "u"⟩
        true).lookup "Router IP" = some (renderRouter (.ok (some "192.168.1.1"))) ∧
    renderRouter (.ok (some "192.168.1.1")) = "192.168.1.1" :=
  ⟨(get_all_info_complete
      ⟨"t", .ok "w", .ok "i", .ok (some "192.168.1.1"), .ok "u"⟩).2.2.2.2.1,
   (get_all_info_complete
      ⟨"t", .ok "w", .ok "i", .ok (some "192.168.1.1"), .ok "u"⟩).2.2.2.2.2.2.2.2.2.1
      "192.168.1.1" (by decide)⟩

/-- C2: the key list of the aggregated map is "Date/Time", then "Weather"
exactly when weather was requested, then "IP Address", "Router IP",
"Uptime", independently of the probe outcomes — so two calls with identical
inputs order keys identically. -/
theorem get_all_info_key_order :
    (∀ env iw, (get_all_info env iw).map Prod.fst =
      "Date/Time" :: ((if iw then ["Weather"] else []) ++
        ["IP Address", "Router IP", "Uptime"])) ∧
    (∀ env₁ env₂ iw,
      (get_all_info env₁ iw).map Prod.fst = (get_all_info env₂ iw).map Prod.fst) := by
  constructor
  · intro env iw
    cases iw <;> rfl
  · intro env₁ env₂ iw
    cases iw <;> rfl

/-- C4 counterexample: with every probe succeeding, the CLI city-override
sequence orders its keys differently from the combined
`get_all_info(include_weather=True)` path: assigning `info_data["Weather"]`
after the fact appends the key at the end, not in second position. -/
theorem cli_override_order_counterexample :
    (cli_city_override ⟨"T", .ok "W", .ok "I", .ok (some "R"), .ok "U"⟩ (.ok "W2")).map
        Prod.fst ≠
      (get_all_info ⟨"T", .ok "W", .ok "I", .ok (some "R"), .ok "U"⟩ true).map Prod.fst := by
  decide

/-- C4 (amended): the CLI city-override sequence produces a map with the same
key set (a permutation) and the same non-weather entries as the combined
path, with the weather entry rendered under "Weather"; but its key order
places "Weather" last rather than second. -/
theorem cli_override_shape (env : ProbeEnv) (w : Except String String) :
    ((cli_city_override env w).map Prod.fst =
      ["Date/Time", "IP Address", "Router IP", "Uptime", "Weather"]) ∧
    ((cli_city_override env w).map Prod.fst).Perm
      ((get_all_info env true).map Prod.fst) ∧
    ((cli_city_override env w).lookup "Date/Time" =
      (get_all_info env true).lookup "Date/Time") ∧
    ((cli_city_override env w).lookup "IP Address" =
      (get_all_info env true).lookup "IP Address") ∧
    ((cli_city_override env w).lookup "Router IP" =
      (get_all_info env true).lookup "Router IP") ∧
    ((cli_city_override env w).lookup "Uptime" =
      (get_all_info env true).lookup "Uptime") ∧
    ((cli_city_override env w).lookup "Weather" = some (renderResult w)) := by
  obtain ⟨now, wx, ip, r, u⟩ := env
  refine ⟨rfl, ?_, rfl, rfl, rfl, rfl, rfl⟩
  rw [show (cli_city_override ⟨now, wx, ip, r, u⟩ w).map Prod.fst =
      ["Date/Time", "IP Address", "Router IP", "Uptime", "Weather"] from rfl,
    show (get_all_info ⟨now, wx, ip, r, u⟩ true).map Prod.fst =
      ["Date/Time", "Weather", "IP Address", "Router IP", "Uptime"] from rfl]
  decide

/-- C7 counterexample: an output line starting with the characters "default"
but whose first token is not the literal "default" is still matched by the
scan, so the probe does not return the no-value sentinel even though no line
has first token "default". -/
theorem router_first_token_counterexample :
    get_router_ip (.ok "defaultx via 10.0.0.1") = some "10.0.0.1" ∧
    (∀ l ∈ pySplitLines "defaultx via 10.0.0.1",
      (pySplitWs l).head? ≠ some "default") := by
  decide

/-- C7 (amended): the router probe never raises; a failed or timed-out
command yields the no-value sentinel; on captured output it returns the
third token of the first stripped line that starts with "default" and has
at least three tokens, and the sentinel when no such line exists; the
aggregator renders the sentinel as "Not available", distinct from every
"Error: ..." value. -/
theorem get_router_ip_soft :
    (∀ m, get_router_ip (.fail m) = none) ∧
    (∀ out, get_router_ip (.ok out) = (pySplitLines out).findSome? defaultThird) ∧
    get_router_ip (.ok "default via 192.168.1.1 dev eth0 proto dhcp") =
      some "192.168.1.1" ∧
    (∀ env iw, env.router = .ok none →
      (get_all_info env iw).lookup "Router IP" = some "Not available") ∧
    (∀ e, "Not available" ≠ "Error: " ++ e) := by
  refine ⟨fun m => rfl, fun out => routerScan_eq_findSome _, by decide, ?_, ?_⟩
  · intro env iw h
    obtain ⟨now, w, ip, r, u⟩ := env
    cases h
    cases iw <;> rfl
  · intro e h
    have h2 := congrArg String.data h
    simp only [String.data_append] at h2
    have h3 := congrArg (List.take 7) h2
    rw [List.take_left' (by decide)] at h3
    exact absurd h3 (by decide)

theorem get_router_ip_soft_witness :
    (get_all_info ⟨"t", .ok "w", .ok "i", .ok none, .ok "u"⟩ true).lookup "Router IP" =
      some "Not available" :=
  get_router_ip_soft.2.2.2.1 ⟨"t", .ok "w", .ok "i", .ok none, .ok "u"⟩ true rfl

end Sysstatus
